import Mathlib

/-!
Verification of the WeatherStationUI backend (`src/function_app.py`) against
its natural-language specification.

The Python module is shallowly embedded: JSON scalars become `Value`, Python
dicts (which preserve insertion order) become association lists `Record`,
each HTTP handler becomes a pure function from its inputs and a database
state to an `HttpResponse` paired with the successor state.  External
effects that the claims talk about (database metadata queries, connection
creation, liveness probes) are made observable as explicit counters in the
results.
-/

namespace WeatherStation

/-- JSON-ish scalar values as they appear in request bodies and table rows
(`str`, `int`, `bool`, `None` on the Python side). -/
inductive Value
  | vInt (n : Int)
  | vStr (s : String)
  | vBool (b : Bool)
  | vNull
deriving DecidableEq, Repr

/-- A Python dict from column name to scalar, as an insertion-ordered
association list (Python dicts preserve insertion order). -/
abbrev Record := List (String × Value)

/-- Python truthiness of a scalar: `bool(x)`. -/
def pythonBool : Value → Bool
  | .vInt n => n != 0
  | .vStr s => s != ""
  | .vBool b => b
  | .vNull => false

/-- `del d[k]` (also usable when the key may be absent): drop every entry
with the given key.  Python dict keys are unique, so on the dicts the
handlers actually receive this is exactly `del`. -/
def eraseKey (r : Record) (k : String) : Record :=
  r.filter (fun p => p.1 ≠ k)

/-- `k in d`. -/
def hasKey (r : Record) (k : String) : Bool :=
  r.any (fun p => p.1 = k)

/-- `d.get(k)` / `d[k]`. -/
def lookupKey (r : Record) (k : String) : Option Value :=
  (r.find? (fun p => p.1 = k)).map (·.2)

/-- `d[k] = v`: replace in place when the key exists, append otherwise
(Python dict update semantics). -/
def setKey (r : Record) (k : String) (v : Value) : Record :=
  if hasKey r k then r.map (fun p => if p.1 = k then (k, v) else p)
  else r ++ [(k, v)]

/-- `d.keys()` in insertion order. -/
def recKeys (r : Record) : List String := r.map (·.1)

/-- `d.values()` in insertion order. -/
def recValues (r : Record) : List Value := r.map (·.2)

/-! ## AuthGate: `check_authentication` (src/function_app.py lines 25-41) -/

/-- Module-level configuration read from the environment at import time:
`is_azure = os.getenv("WEBSITE_INSTANCE_ID") is not None` and
`tenant_id = os.getenv("AZURE_TENANT_ID")` (which may be `None`). -/
structure AuthConfig where
  isAzure : Bool
  tenantId : Option String
deriving DecidableEq, Repr

/-- The three `X-MS-CLIENT-PRINCIPAL-*` request headers; `none` models a
header that is not present (`req.headers.get` returns `None`). -/
structure AuthHeaders where
  clientPrincipalId : Option String
  clientPrincipalName : Option String
  clientPrincipalTenantId : Option String
deriving DecidableEq, Repr

/-- Python truthiness of `req.headers.get(...)`: falsy exactly when the
header is missing (`None`) or has an empty value. -/
def headerTruthy : Option String → Bool
  | none => false
  | some s => s != ""

/-- Rendering of an optional string inside a Python f-string
(`None` prints as "None"). -/
def fstr : Option String → String
  | none => "None"
  | some s => s

def loginMessage : String :=
  "Unauthorized - Please log in to access this application"

def tenantMessage (t : Option String) : String :=
  "Unauthorized - Only users from tenant " ++ fstr t ++
    " are allowed to access this application"

/-- `check_authentication` (lines 25-41): outside Azure always `(True, "")`;
in Azure, a falsy principal-ID header fails with the login message, a
tenant-ID header different from the configured tenant fails with the
tenant message, otherwise `(True, "")`. -/
def check_authentication (cfg : AuthConfig) (h : AuthHeaders) : Bool × String :=
  if !cfg.isAzure then (true, "")
  else if !headerTruthy h.clientPrincipalId then (false, loginMessage)
  else if h.clientPrincipalTenantId ≠ cfg.tenantId then
    (false, tenantMessage cfg.tenantId)
  else (true, "")

/-! ## Connection handling: `get_db_connection` (lines 55-70)

The source function takes no worker key and keeps no state: every call
performs one service-principal token exchange (`get_access_token`) and one
`pyodbc.connect`, returning a brand-new connection object.  Connection
objects are modelled by the order in which the process allocates them, so
`ConnState.nextConn` fresh ids have been handed out so far; the observable
side effects of one call are recorded in `AcquireResult`. -/

structure ConnState where
  nextConn : Nat
deriving DecidableEq, Repr

structure AcquireResult where
  /-- identity of the returned connection object -/
  conn : Nat
  /-- number of `SELECT 1` liveness probes issued during the call -/
  probes : Nat
  /-- number of token exchanges performed during the call -/
  tokenRequests : Nat
  /-- whether the call opened a new connection -/
  createdNew : Bool
deriving DecidableEq, Repr

/-- `get_db_connection` (lines 55-70): one token exchange, one fresh
`pyodbc.connect`, no map lookup and no probe. -/
def get_db_connection (s : ConnState) : AcquireResult × ConnState :=
  (⟨s.nextConn, 0, 1, true⟩, ⟨s.nextConn + 1⟩)

/-! ## Schema metadata (the `get_schema` query, lines 629-660)

One row of `INFORMATION_SCHEMA.COLUMNS` for the StationTracking table, with
the raw shapes the query sees: `IS_NULLABLE` is the string "YES"/"NO" and
`COLUMNPROPERTY(..., "IsIdentity")` is 0 or 1. -/

structure MetaColumn where
  columnName : String
  dataType : String
  charMaxLength : Option Int
  isNullable : String
  isIdentityRaw : Int
  ordinalPosition : Nat
deriving DecidableEq, Repr

/-- The CASE expression of the metadata query (lines 636-640): the computed
`INPUT_TYPE` column. -/
def inputTypeOf (dataType : String) : String :=
  if dataType = "bit" then "bit"
  else if dataType = "int" ∨ dataType = "bigint" ∨ dataType = "smallint"
      ∨ dataType = "tinyint" then "number"
  else "text"

/-- Comparison used by `ORDER BY c.ORDINAL_POSITION`. -/
def ordinalLe (a b : MetaColumn) : Prop :=
  a.ordinalPosition ≤ b.ordinalPosition

instance : DecidableRel ordinalLe := fun a b =>
  inferInstanceAs (Decidable (a.ordinalPosition ≤ b.ordinalPosition))

/-- Insertion step of the sort modelling `ORDER BY c.ORDINAL_POSITION`. -/
def insertByOrdinal (m : MetaColumn) : List MetaColumn → List MetaColumn
  | [] => [m]
  | n :: ns =>
    if m.ordinalPosition ≤ n.ordinalPosition then m :: n :: ns
    else n :: insertByOrdinal m ns

/-- `ORDER BY c.ORDINAL_POSITION`: the database returns the metadata rows
sorted by ordinal position. -/
def sortByOrdinal (l : List MetaColumn) : List MetaColumn :=
  l.foldr insertByOrdinal []

/-- The rows produced by the metadata query of lines 629-644: the table
metadata ordered by the native column ordinal position. -/
def metadataRows (meta : List MetaColumn) : List MetaColumn :=
  sortByOrdinal meta

/-- One element of the `columns` array built by the Python loop of
lines 651-660; field names follow the dict keys of the source. -/
structure ColumnInfo where
  name : String
  type : String
  max_length : Option Int
  is_nullable : Bool
  is_identity : Bool
  input_type : String
deriving DecidableEq, Repr

/-- The dict built from one query row (lines 652-659): `row[3] == "YES"`,
`bool(row[4])`, and `row[5]` is the CASE-computed input type. -/
def toColumnInfo (m : MetaColumn) : ColumnInfo :=
  { name := m.columnName
    type := m.dataType
    max_length := m.charMaxLength
    is_nullable := m.isNullable = "YES"
    is_identity := m.isIdentityRaw != 0
    input_type := inputTypeOf m.dataType }

/-! ## Database model for the StationTracking table -/

/-- The managed table: its column names in ordinal order (the identity
column is named "ID"), its rows (each a full `Record` in table column
order), and the next identity value the server will assign. -/
structure Db where
  cols : List String
  rows : List Record
  nextId : Int
deriving DecidableEq, Repr

/-- The full row stored (and returned by `OUTPUT INSERTED.*` or
`SELECT *`) for an insert of the given field map: every table column in
ordinal order, the identity column set to the server-assigned id, supplied
columns to their value, all others to NULL. -/
def rowFromFields (cols : List String) (newId : Int) (fields : Record) : Record :=
  cols.map (fun c =>
    (c, if c = "ID" then .vInt newId else (lookupKey fields c).getD .vNull))

/-- SQL Server accepts the dynamic INSERT column list only when every listed
column exists in the table and none of them is the identity column (an
explicit identity value is rejected while IDENTITY_INSERT is off). -/
def validInsertCols (cols : List String) (fields : Record) : Bool :=
  fields.all (fun p => cols.contains p.1 && p.1 != "ID")

/-- Models `INSERT INTO StationTracking (cols) OUTPUT INSERTED.* VALUES
(...)` executed with the given field map: on success the server assigns
`db.nextId` as identity, stores the full row and returns it. -/
def dbInsertReturning (db : Db) (fields : Record) :
    Except String (Record × Db) :=
  if validInsertCols db.cols fields then
    let row := rowFromFields db.cols db.nextId fields
    .ok (row, { db with rows := db.rows ++ [row], nextId := db.nextId + 1 })
  else .error "Invalid column name in INSERT statement"

/-- `UPDATE` of one row: supplied columns replaced, others kept. -/
def updateRow (r : Record) (fields : Record) : Record :=
  r.map (fun p =>
    match lookupKey fields p.1 with
    | some v => (p.1, v)
    | none => p)

/-- Models executing `UPDATE StationTracking SET ... WHERE ID = ?`.
SQL Server rejects the statement with a syntax error when the SET clause is
empty, and with an invalid-column error when it names an unknown column;
otherwise the rows whose identity matches are updated in place. -/
def dbUpdate (db : Db) (fields : Record) (id : Int) : Except String Db :=
  if fields.isEmpty then .error "Incorrect syntax near the keyword WHERE"
  else if !fields.all (fun p => db.cols.contains p.1) then
    .error "Invalid column name in UPDATE statement"
  else
    .ok { db with
      rows := db.rows.map (fun r =>
        if lookupKey r "ID" = some (.vInt id) then updateRow r fields else r) }

/-- `SELECT * FROM StationTracking WHERE ID = ?` followed by
`cursor.fetchone()`: first matching row, if any. -/
def dbFindRow (db : Db) (id : Int) : Option Record :=
  db.rows.find? (fun r => decide (lookupKey r "ID" = some (.vInt id)))

/-! ## HTTP responses -/

/-- The response payloads the module constructs: a plain-text body
(`func.HttpResponse(message, ...)`), a `json.dumps` of an error object, of
a station object, of a stations array, of a columns array, or no body. -/
inductive RespBody
  | text (s : String)
  | errorObj (msg : String)
  | stationObj (r : Record)
  | stationsObj (rs : List Record)
  | columnsObj (cs : List ColumnInfo)
  | empty
deriving DecidableEq, Repr

/-- Does the body have the JSON shape produced by
`json.dumps(\x7b"error": msg\x7d)`? -/
def isErrorObjBody : RespBody → Bool
  | .errorObj _ => true
  | _ => false

structure HttpResponse where
  status : Nat
  body : RespBody
deriving DecidableEq, Repr

/-! ## SQL statement text builders -/

/-- `", ".join(req_body.keys())`. -/
def joinedColumns (fields : Record) : String :=
  String.intercalate ", " (recKeys fields)

/-- The dynamic INSERT text of `create_station` (lines 739-741). -/
def create_sql (fields : Record) : String :=
  "INSERT INTO StationTracking (" ++ joinedColumns fields ++
    ") OUTPUT INSERTED.* VALUES (" ++
    String.intercalate ", " (fields.map (fun _ => "?")) ++ ")"

/-- Helper for `splitComma`: scan the characters, cutting at every comma
(Python keeps empty segments and yields one segment even for the empty
string, as this recursion does). -/
def splitCommaAux : List Char → List Char → List String
  | [], acc => [String.mk acc.reverse]
  | c :: cs, acc =>
    if c = ',' then String.mk acc.reverse :: splitCommaAux cs []
    else splitCommaAux cs (c :: acc)

/-- Python `columns.split(",")` (line 875): split on the single-character
separator. -/
def splitComma (s : String) : List String := splitCommaAux s.data []

/-- The SET clause of `update_station` (line 789). -/
def update_set_clause (fields : Record) : String :=
  String.intercalate ", " ((recKeys fields).map (fun k => k ++ " = ?"))

/-- The dynamic UPDATE text of `update_station` (line 790). -/
def update_sql (fields : Record) : String :=
  "UPDATE StationTracking SET " ++ update_set_clause fields ++ " WHERE ID = ?"

/-! ## HTTP handlers

Each handler is a pure function of the module configuration, the request
headers, its request-specific inputs and the database state.  Exceptions
raised inside the `try` block are the `.error` results of the database
model; the `except` clause of every handler returns status 500 with
`json.dumps` of the error message. -/

/-- `get_schema` (lines 618-678).  The second component counts the database
metadata queries issued during the call; `meta` is the current contents of
`INFORMATION_SCHEMA.COLUMNS` for the StationTracking table. -/
def get_schema (cfg : AuthConfig) (h : AuthHeaders) (meta : List MetaColumn) :
    HttpResponse × Nat :=
  match check_authentication cfg h with
  | (false, msg) => (⟨401, .text msg⟩, 0)
  | (true, _) =>
    let rows := metadataRows meta
    if rows.isEmpty then
      (⟨500, .errorObj "No schema information found for StationTracking table"⟩, 1)
    else
      let columns := rows.map toColumnInfo
      if columns.isEmpty then
        (⟨500, .errorObj "No columns found in schema"⟩, 1)
      else (⟨200, .columnsObj columns⟩, 1)

/-- `get_stations` (lines 680-711): `SELECT * FROM StationTracking` and a
dict per row. -/
def get_stations (cfg : AuthConfig) (h : AuthHeaders) (db : Db) :
    HttpResponse × Db :=
  match check_authentication cfg h with
  | (false, msg) => (⟨401, .text msg⟩, db)
  | (true, _) => (⟨200, .stationsObj db.rows⟩, db)

/-- The body transformation of `create_station` (lines 724-732): drop "ID"
when present, then coerce an existing "IsActive" with `bool(...)` or append
"IsActive" as True when absent. -/
def create_payload (body : Record) : Record :=
  let b1 := eraseKey body "ID"
  if hasKey b1 "IsActive" then
    setKey b1 "IsActive" (.vBool (pythonBool ((lookupKey b1 "IsActive").getD .vNull)))
  else setKey b1 "IsActive" (.vBool true)

/-- `create_station` (lines 713-769): empty body raises
`ValueError("Request body is empty")`; otherwise the payload is built, the
dynamic INSERT with `OUTPUT INSERTED.*` runs and the returned row is the
201 response body. -/
def create_station (cfg : AuthConfig) (h : AuthHeaders) (body : Record)
    (db : Db) : HttpResponse × Db :=
  match check_authentication cfg h with
  | (false, msg) => (⟨401, .text msg⟩, db)
  | (true, _) =>
    if body.isEmpty then (⟨500, .errorObj "Request body is empty"⟩, db)
    else
      match dbInsertReturning db (create_payload body) with
      | .ok (row, db2) => (⟨201, .stationObj row⟩, db2)
      | .error e => (⟨500, .errorObj e⟩, db)

/-- `update_station` (lines 771-815): drop "ID" from the body, run the
dynamic UPDATE (whose text is `update_sql`), commit, then re-read the row;
`dict(zip(columns, cursor.fetchone()))` raises a TypeError when the re-read
returns no row.  The route parameter is a string converted to the integer
identity by the parameterized comparison; it is modelled as the integer. -/
def update_station (cfg : AuthConfig) (h : AuthHeaders) (id : Int)
    (body : Record) (db : Db) : HttpResponse × Db :=
  match check_authentication cfg h with
  | (false, msg) => (⟨401, .text msg⟩, db)
  | (true, _) =>
    let b1 := eraseKey body "ID"
    match dbUpdate db b1 id with
    | .error e => (⟨500, .errorObj e⟩, db)
    | .ok db2 =>
      match dbFindRow db2 id with
      | some row => (⟨200, .stationObj row⟩, db2)
      | none => (⟨500, .errorObj "NoneType object is not iterable"⟩, db2)

/-- `delete_station` (lines 817-842): DELETE by identity, 204 with no body;
0 rows affected is not distinguished from 1. -/
def delete_station (cfg : AuthConfig) (h : AuthHeaders) (id : Int)
    (db : Db) : HttpResponse × Db :=
  match check_authentication cfg h with
  | (false, msg) => (⟨401, .text msg⟩, db)
  | (true, _) =>
    (⟨204, .empty⟩,
      { db with rows :=
          db.rows.filter (fun r => !decide (lookupKey r "ID" = some (.vInt id))) })

/-- `clone_station` (lines 844-890): read the source row, `del` its "ID",
join its keys into the string `columns`, INSERT (without OUTPUT), commit,
re-read with `SELECT * ... WHERE ID = SCOPE_IDENTITY()`, and build the
response dict as `dict(zip(columns.split(","), cursor.fetchone()))`.
`SCOPE_IDENTITY()` is modelled generously as the identity just assigned by
the INSERT of this call; `cursor.fetchone()` on a missing row is `None`,
and `dict(zip(..., None))` raises a TypeError handled as a 500. -/
def clone_station (cfg : AuthConfig) (h : AuthHeaders) (id : Int)
    (db : Db) : HttpResponse × Db :=
  match check_authentication cfg h with
  | (false, msg) => (⟨401, .text msg⟩, db)
  | (true, _) =>
    match dbFindRow db id with
    | none => (⟨500, .errorObj "NoneType object is not iterable"⟩, db)
    | some sourceStation =>
      let src := eraseKey sourceStation "ID"
      let columns := joinedColumns src
      match dbInsertReturning db src with
      | .error e => (⟨500, .errorObj e⟩, db)
      | .ok (_, db2) =>
        match dbFindRow db2 db.nextId with
        | none => (⟨500, .errorObj "NoneType object is not iterable"⟩, db2)
        | some newRow =>
          let station := (splitComma columns).zip (recValues newRow)
          (⟨201, .stationObj station⟩, db2)

/-! ## Concrete fixtures used by witnesses and counterexamples -/

/-- Local-development configuration (`WEBSITE_INSTANCE_ID` unset). -/
def localCfg : AuthConfig := ⟨false, some "contoso"⟩

/-- Azure configuration with the expected tenant configured. -/
def azureCfg : AuthConfig := ⟨true, some "contoso"⟩

/-- A request carrying none of the principal headers. -/
def noHeaders : AuthHeaders := ⟨none, none, none⟩

/-- A request from an authenticated user of the expected tenant. -/
def okHeaders : AuthHeaders := ⟨some "user-1", some "user", some "contoso"⟩

/-- A three-column table (identity first), one stored row, next identity 2. -/
def demoDb : Db :=
  { cols := ["ID", "Name", "IsActive"]
    rows := [[("ID", .vInt 1), ("Name", .vStr "Alpha"), ("IsActive", .vBool true)]]
    nextId := 2 }

/-- Metadata fixture: the three columns of `demoDb`, listed out of ordinal
order to exercise the ORDER BY. -/
def demoMeta : List MetaColumn :=
  [⟨"Name", "nvarchar", some 100, "YES", 0, 2⟩,
   ⟨"ID", "int", none, "NO", 1, 1⟩,
   ⟨"IsActive", "bit", none, "NO", 0, 3⟩]

/-- A second metadata fixture differing from `demoMeta` (an extra column),
standing for the table after an online schema change. -/
def demoMetaChanged : List MetaColumn :=
  demoMeta ++ [⟨"URL", "nvarchar", some 200, "YES", 0, 4⟩]

/-! ## Helper lemmas about the dict operations -/

theorem lookupKey_cons (a : String) (v : Value) (r : Record) (k : String) :
    lookupKey ((a, v) :: r) k = if a = k then some v else lookupKey r k := by
  by_cases h : a = k <;> simp [lookupKey, List.find?_cons, h]

theorem hasKey_cons (a : String) (v : Value) (r : Record) (k : String) :
    hasKey ((a, v) :: r) k = (decide (a = k) || hasKey r k) := by
  simp [hasKey, List.any_cons]

theorem eraseKey_cons (a : String) (v : Value) (r : Record) (k : String) :
    eraseKey ((a, v) :: r) k =
      if a = k then eraseKey r k else (a, v) :: eraseKey r k := by
  by_cases h : a = k <;> simp [eraseKey, List.filter_cons, h]

theorem recKeys_eraseKey_not_mem (r : Record) (k : String) :
    k ∉ recKeys (eraseKey r k) := by
  simp only [recKeys, eraseKey, List.mem_map, List.mem_filter]
  rintro ⟨p, ⟨-, hne⟩, rfl⟩
  simp at hne

theorem eraseKey_eraseKey (r : Record) (k : String) :
    eraseKey (eraseKey r k) k = eraseKey r k := by
  simp [eraseKey, List.filter_filter]

theorem hasKey_eq_true_iff (r : Record) (k : String) :
    hasKey r k = true ↔ ∃ p ∈ r, p.1 = k := by
  simp [hasKey, List.any_eq_true]

theorem hasKey_eraseKey_ne (r : Record) (k k' : String) (h : k' ≠ k) :
    hasKey (eraseKey r k) k' = hasKey r k' := by
  induction r with
  | nil => rfl
  | cons p t ih =>
    obtain ⟨a, v⟩ := p
    rw [eraseKey_cons]
    by_cases ha : a = k
    · subst ha
      simp [hasKey_cons, ih, Ne.symm h]
    · simp [ha, hasKey_cons, ih]

theorem lookupKey_eraseKey_ne (r : Record) (k k' : String) (h : k' ≠ k) :
    lookupKey (eraseKey r k) k' = lookupKey r k' := by
  induction r with
  | nil => rfl
  | cons p t ih =>
    obtain ⟨a, v⟩ := p
    rw [eraseKey_cons]
    by_cases ha : a = k
    · subst ha
      simp [lookupKey_cons, ih, Ne.symm h]
    · by_cases ha' : a = k'
      · subst ha'
        simp [ha, lookupKey_cons]
      · simp [ha, lookupKey_cons, ha', ih]

theorem lookupKey_append_of_hasKey_false (r s : Record) (k : String)
    (h : hasKey r k = false) : lookupKey (r ++ s) k = lookupKey s k := by
  induction r with
  | nil => rfl
  | cons p t ih =>
    obtain ⟨a, v⟩ := p
    rw [hasKey_cons, Bool.or_eq_false_iff] at h
    have ha : a ≠ k := by simpa using h.1
    simp [lookupKey_cons, ha, ih h.2]

theorem lookupKey_map_set_of_hasKey (r : Record) (k : String) (v : Value)
    (h : hasKey r k = true) :
    lookupKey (r.map (fun p => if p.1 = k then (k, v) else p)) k = some v := by
  induction r with
  | nil => simp [hasKey] at h
  | cons p t ih =>
    obtain ⟨a, w⟩ := p
    by_cases ha : a = k
    · simp [ha, lookupKey_cons]
    · have ht : hasKey t k = true := by
        rw [hasKey_cons] at h
        simpa [ha] using h
      simp [ha, lookupKey_cons, ih ht]

theorem lookupKey_setKey_self (r : Record) (k : String) (v : Value) :
    lookupKey (setKey r k v) k = some v := by
  unfold setKey
  by_cases h : hasKey r k
  · simp only [h, if_true]
    exact lookupKey_map_set_of_hasKey r k v h
  · rw [if_neg (by simp [h])]
    rw [lookupKey_append_of_hasKey_false r _ k (by simpa using h)]
    simp [lookupKey_cons]

theorem hasKey_of_lookupKey (r : Record) (k : String) (v : Value)
    (h : lookupKey r k = some v) : hasKey r k = true := by
  unfold lookupKey at h
  rcases hfind : r.find? (fun p => decide (p.1 = k)) with _ | q
  · rw [hfind] at h; simp at h
  · have hq := List.find?_some hfind
    have hmem := List.mem_of_find?_eq_some hfind
    exact (hasKey_eq_true_iff r k).mpr ⟨q, hmem, by simpa using hq⟩

theorem hasKey_setKey_self (r : Record) (k : String) (v : Value) :
    hasKey (setKey r k v) k = true :=
  hasKey_of_lookupKey _ _ _ (lookupKey_setKey_self r k v)

theorem mem_recKeys_setKey (r : Record) (k : String) (v : Value) (x : String)
    (h : x ∈ recKeys (setKey r k v)) : x ∈ recKeys r ∨ x = k := by
  unfold setKey at h
  by_cases hk : hasKey r k
  · simp only [hk, if_true, recKeys, List.mem_map] at h
    rcases h with ⟨p, ⟨a, haR, hfa⟩, hx⟩
    by_cases h1 : a.1 = k
    · right
      rw [if_pos h1] at hfa
      subst hfa
      exact hx.symm
    · left
      rw [if_neg h1] at hfa
      subst hfa
      exact List.mem_map.mpr ⟨a, haR, hx⟩
  · rw [if_neg (by simp [hk])] at h
    simp only [recKeys, List.map_append] at h
    rcases List.mem_append.mp h with h1 | h1
    · exact Or.inl h1
    · simp at h1
      exact Or.inr h1

theorem lookupKey_rowFromFields (cols : List String) (i : Int)
    (fields : Record) (c : String) (hc : c ∈ cols) :
    lookupKey (rowFromFields cols i fields) c =
      some (if c = "ID" then .vInt i else (lookupKey fields c).getD .vNull) := by
  induction cols with
  | nil => cases hc
  | cons a t ih =>
    rw [rowFromFields, List.map_cons, lookupKey_cons]
    by_cases ha : a = c
    · subst ha
      simp
    · rw [if_neg ha]
      exact ih ((List.mem_cons.mp hc).resolve_left (fun he => ha he.symm))

/-! ## Sortedness of the metadata ordering -/

theorem mem_insertByOrdinal (m x : MetaColumn) (l : List MetaColumn) :
    x ∈ insertByOrdinal m l ↔ x = m ∨ x ∈ l := by
  induction l with
  | nil => simp [insertByOrdinal]
  | cons n ns ih =>
    by_cases hle : m.ordinalPosition ≤ n.ordinalPosition
    · simp [insertByOrdinal, hle]
    · simp only [insertByOrdinal, if_neg hle, List.mem_cons, ih]
      tauto

theorem pairwise_insertByOrdinal (m : MetaColumn) (l : List MetaColumn)
    (h : l.Pairwise ordinalLe) :
    (insertByOrdinal m l).Pairwise ordinalLe := by
  induction l with
  | nil => simp [insertByOrdinal, List.pairwise_singleton]
  | cons n ns ih =>
    rcases List.pairwise_cons.mp h with ⟨hn, hns⟩
    by_cases hle : m.ordinalPosition ≤ n.ordinalPosition
    · rw [insertByOrdinal, if_pos hle]
      refine List.pairwise_cons.mpr ⟨?_, h⟩
      intro x hx
      rcases List.mem_cons.mp hx with rfl | hx
      · exact hle
      · exact le_trans hle (hn x hx)
    · rw [insertByOrdinal, if_neg hle]
      refine List.pairwise_cons.mpr ⟨?_, ih hns⟩
      intro x hx
      rcases (mem_insertByOrdinal m x ns).mp hx with rfl | hx
      · exact le_of_not_le hle
      · exact hn x hx

theorem pairwise_sortByOrdinal (l : List MetaColumn) :
    (sortByOrdinal l).Pairwise ordinalLe := by
  induction l with
  | nil => simp [sortByOrdinal]
  | cons m t ih => exact pairwise_insertByOrdinal m _ ih

theorem pairwise_metadataRows (meta : List MetaColumn) :
    (metadataRows meta).Pairwise ordinalLe :=
  pairwise_sortByOrdinal meta

/-! ## Handler-level helper lemmas -/

theorem create_payload_eq (body : Record) :
    create_payload body = setKey (eraseKey body "ID") "IsActive"
      (if hasKey (eraseKey body "ID") "IsActive" then
        .vBool (pythonBool ((lookupKey (eraseKey body "ID") "IsActive").getD .vNull))
      else .vBool true) := by
  unfold create_payload
  by_cases hk : hasKey (eraseKey body "ID") "IsActive" <;> simp [hk]

theorem recKeys_create_payload_no_id (body : Record) :
    "ID" ∉ recKeys (create_payload body) := by
  rw [create_payload_eq]
  intro hm
  rcases mem_recKeys_setKey _ _ _ _ hm with h1 | h1
  · exact recKeys_eraseKey_not_mem body "ID" h1
  · simp at h1

theorem create_station_201 (cfg : AuthConfig) (h : AuthHeaders)
    (body : Record) (db : Db)
    (h201 : (create_station cfg h body db).1.status = 201) :
    ∃ row db2, create_station cfg h body db = (⟨201, .stationObj row⟩, db2) ∧
      row = rowFromFields db.cols db.nextId (create_payload body) ∧
      validInsertCols db.cols (create_payload body) = true := by
  rcases hca : check_authentication cfg h with ⟨ok, msg⟩
  cases ok
  · simp [create_station, hca] at h201
  · by_cases hb : body.isEmpty
    · simp [create_station, hca, hb] at h201
    · cases hins : dbInsertReturning db (create_payload body) with
      | error e => simp [create_station, hca, hb, hins] at h201
      | ok p =>
        obtain ⟨row, db2⟩ := p
        refine ⟨row, db2, ?_, ?_, ?_⟩
        · simp [create_station, hca, hb, hins]
        · unfold dbInsertReturning at hins
          by_cases hv : validInsertCols db.cols (create_payload body)
          · rw [if_pos hv] at hins
            have hp := Except.ok.inj hins
            exact (congrArg Prod.fst hp).symm
          · rw [if_neg hv] at hins
            cases hins
        · unfold dbInsertReturning at hins
          by_cases hv : validInsertCols db.cols (create_payload body)
          · exact hv
          · rw [if_neg hv] at hins
            cases hins

theorem create_station_500_body (cfg : AuthConfig) (h : AuthHeaders)
    (body : Record) (db : Db)
    (h500 : (create_station cfg h body db).1.status = 500) :
    isErrorObjBody (create_station cfg h body db).1.body = true := by
  rcases hca : check_authentication cfg h with ⟨ok, msg⟩
  cases ok
  · simp [create_station, hca] at h500
  · by_cases hb : body.isEmpty
    · simp [create_station, hca, hb, isErrorObjBody]
    · cases hins : dbInsertReturning db (create_payload body) with
      | error e => simp [create_station, hca, hb, hins, isErrorObjBody]
      | ok p =>
        obtain ⟨row, db2⟩ := p
        simp [create_station, hca, hb, hins] at h500

theorem update_station_500_body (cfg : AuthConfig) (h : AuthHeaders)
    (id : Int) (body : Record) (db : Db)
    (h500 : (update_station cfg h id body db).1.status = 500) :
    isErrorObjBody (update_station cfg h id body db).1.body = true := by
  rcases hca : check_authentication cfg h with ⟨ok, msg⟩
  cases ok
  · simp [update_station, hca] at h500
  · cases hupd : dbUpdate db (eraseKey body "ID") id with
    | error e => simp [update_station, hca, hupd, isErrorObjBody]
    | ok db2 =>
      cases hfind : dbFindRow db2 id with
      | some row => simp [update_station, hca, hupd, hfind] at h500
      | none => simp [update_station, hca, hupd, hfind, isErrorObjBody]

theorem clone_station_500_body (cfg : AuthConfig) (h : AuthHeaders)
    (id : Int) (db : Db)
    (h500 : (clone_station cfg h id db).1.status = 500) :
    isErrorObjBody (clone_station cfg h id db).1.body = true := by
  rcases hca : check_authentication cfg h with ⟨ok, msg⟩
  cases ok
  · simp [clone_station, hca] at h500
  · cases hsrc : dbFindRow db id with
    | none => simp [clone_station, hca, hsrc, isErrorObjBody]
    | some sourceStation =>
      cases hins : dbInsertReturning db (eraseKey sourceStation "ID") with
      | error e => simp [clone_station, hca, hsrc, hins, isErrorObjBody]
      | ok p =>
        obtain ⟨row, db2⟩ := p
        cases hfind : dbFindRow db2 db.nextId with
        | none => simp [clone_station, hca, hsrc, hins, hfind, isErrorObjBody]
        | some newRow => simp [clone_station, hca, hsrc, hins, hfind] at h500

theorem get_schema_500_body (cfg : AuthConfig) (h : AuthHeaders)
    (meta : List MetaColumn)
    (h500 : (get_schema cfg h meta).1.status = 500) :
    isErrorObjBody (get_schema cfg h meta).1.body = true := by
  rcases hca : check_authentication cfg h with ⟨ok, msg⟩
  cases ok
  · simp [get_schema, hca] at h500
  · by_cases hm : (metadataRows meta).isEmpty
    · simp [get_schema, hca, hm, isErrorObjBody]
    · by_cases hc : ((metadataRows meta).map toColumnInfo).isEmpty
      · simp [get_schema, hca, hm, hc, isErrorObjBody]
      · simp [get_schema, hca, hm, hc] at h500

theorem handlers_401 (cfg : AuthConfig) (h : AuthHeaders) (db : Db)
    (body : Record) (id : Int) (meta : List MetaColumn) (m : String)
    (hm : check_authentication cfg h = (false, m)) :
    (get_stations cfg h db).1 = ⟨401, .text m⟩ ∧
    (create_station cfg h body db).1 = ⟨401, .text m⟩ ∧
    (update_station cfg h id body db).1 = ⟨401, .text m⟩ ∧
    (delete_station cfg h id db).1 = ⟨401, .text m⟩ ∧
    (clone_station cfg h id db).1 = ⟨401, .text m⟩ ∧
    (get_schema cfg h meta).1 = ⟨401, .text m⟩ := by
  refine ⟨?_, ?_, ?_, ?_, ?_, ?_⟩ <;>
    simp [get_stations, create_station, update_station, delete_station,
      clone_station, get_schema, hm]

/-! ## Claim theorems -/

/-- C1: for every request body, both mutation handlers remove the identity
column "ID" before the dynamic statement is built — "ID" is never among
the INSERT column list (`create_payload`) nor the UPDATE SET columns
(`eraseKey body "ID"`), the insert payload is insensitive to any
client-supplied "ID" value, and a successful create returns a row whose
identity is the server-assigned `db.nextId`. -/
theorem identity_never_client_written (cfg : AuthConfig) (h : AuthHeaders)
    (body : Record) (db : Db) (hid : "ID" ∈ db.cols) :
    "ID" ∉ recKeys (create_payload body) ∧
    create_payload body = create_payload (eraseKey body "ID") ∧
    "ID" ∉ recKeys (eraseKey body "ID") ∧
    ((create_station cfg h body db).1.status = 201 →
      ∃ row db2, create_station cfg h body db = (⟨201, .stationObj row⟩, db2) ∧
        lookupKey row "ID" = some (.vInt db.nextId)) := by
  refine ⟨recKeys_create_payload_no_id body, ?_, recKeys_eraseKey_not_mem body "ID", ?_⟩
  · unfold create_payload
    rw [eraseKey_eraseKey]
  · intro h201
    obtain ⟨row, db2, heq, hrow, -⟩ := create_station_201 cfg h body db h201
    refine ⟨row, db2, heq, ?_⟩
    rw [hrow, lookupKey_rowFromFields db.cols db.nextId _ "ID" hid]
    simp

/-- C1 witness: a concrete create carrying a client-supplied "ID" of 999
succeeds and returns the server-assigned identity 2 instead. -/
theorem identity_never_client_written_witness :
    ∃ row db2,
      create_station localCfg noHeaders [("ID", .vInt 999), ("Name", .vStr "Alpha")] demoDb
        = (⟨201, .stationObj row⟩, db2) ∧
      lookupKey row "ID" = some (.vInt 2) :=
  (identity_never_client_written localCfg noHeaders
    [("ID", .vInt 999), ("Name", .vStr "Alpha")] demoDb (by decide)).2.2.2 (by decide)

/-- C2 counterexample: in the managed context with the principal header
absent, the stations endpoint responds 401 with the plain-text login
message as body — not a JSON object of shape error-string. -/
theorem auth_failure_body_is_plain_text :
    (get_stations azureCfg noHeaders demoDb).1.status = 401 ∧
    (get_stations azureCfg noHeaders demoDb).1.body = .text loginMessage ∧
    isErrorObjBody (get_stations azureCfg noHeaders demoDb).1.body = false := by
  decide

/-- C2 amended: a failed authentication yields 401 with the auth message as
a plain-text body, while every modelled unhandled non-auth failure yields
500 with a body of shape error-string. -/
theorem error_response_shapes (cfg : AuthConfig) (h : AuthHeaders) (db : Db)
    (body : Record) (id : Int) (meta : List MetaColumn) :
    (∀ m, check_authentication cfg h = (false, m) →
      (get_stations cfg h db).1 = ⟨401, .text m⟩ ∧
      (create_station cfg h body db).1 = ⟨401, .text m⟩ ∧
      (update_station cfg h id body db).1 = ⟨401, .text m⟩ ∧
      (delete_station cfg h id db).1 = ⟨401, .text m⟩ ∧
      (clone_station cfg h id db).1 = ⟨401, .text m⟩ ∧
      (get_schema cfg h meta).1 = ⟨401, .text m⟩) ∧
    ((create_station cfg h body db).1.status = 500 →
      isErrorObjBody (create_station cfg h body db).1.body = true) ∧
    ((update_station cfg h id body db).1.status = 500 →
      isErrorObjBody (update_station cfg h id body db).1.body = true) ∧
    ((clone_station cfg h id db).1.status = 500 →
      isErrorObjBody (clone_station cfg h id db).1.body = true) ∧
    ((get_schema cfg h meta).1.status = 500 →
      isErrorObjBody (get_schema cfg h meta).1.body = true) :=
  ⟨fun m hm => handlers_401 cfg h db body id meta m hm,
   create_station_500_body cfg h body db,
   update_station_500_body cfg h id body db,
   clone_station_500_body cfg h id db,
   get_schema_500_body cfg h meta⟩

/-- C2 amended witness: the 401 plain-text shape at a concrete
unauthenticated request, and the 500 error-object shape at a concrete
failing create (empty body). -/
theorem error_response_shapes_witness :
    (get_stations azureCfg noHeaders demoDb).1 = ⟨401, .text loginMessage⟩ ∧
    isErrorObjBody (create_station localCfg noHeaders [] demoDb).1.body = true :=
  ⟨((error_response_shapes azureCfg noHeaders demoDb [] 1 []).1
      loginMessage (by decide)).1,
   (error_response_shapes localCfg noHeaders demoDb [] 1 []).2.1 (by decide)⟩

/-- C3 counterexample: the schema handler keeps no cache — a second
request after a successful first one still issues a metadata query
(count 1, the claim requires 0), and a metadata change between the two
requests changes the response. -/
theorem get_schema_no_cache :
    (get_schema localCfg noHeaders demoMeta).2 = 1 ∧
    (get_schema localCfg noHeaders demoMetaChanged).2 = 1 ∧
    (get_schema localCfg noHeaders demoMeta).1 ≠
      (get_schema localCfg noHeaders demoMetaChanged).1 := by
  decide

/-- C3 amended: the handler holds no process-wide schema state — every
authenticated schema request issues exactly one metadata query against the
current database contents. -/
theorem get_schema_queries_every_call (cfg : AuthConfig) (h : AuthHeaders)
    (meta : List MetaColumn)
    (hauth : check_authentication cfg h = (true, "")) :
    (get_schema cfg h meta).2 = 1 := by
  by_cases hm : (metadataRows meta).isEmpty
  · simp [get_schema, hauth, hm]
  · by_cases hc : ((metadataRows meta).map toColumnInfo).isEmpty
    · simp [get_schema, hauth, hm, hc]
    · simp [get_schema, hauth, hm, hc]

theorem get_schema_queries_every_call_witness :
    (get_schema localCfg noHeaders demoMeta).2 = 1 :=
  get_schema_queries_every_call localCfg noHeaders demoMeta (by decide)

/-- C4 counterexample: two consecutive acquisitions (necessarily from the
same worker key — the source function takes none) return two distinct
connections; the second call issues no `SELECT 1` probe and opens a new
connection even though one already exists, so no key-to-connection map
with probe-and-reuse exists. -/
theorem get_db_connection_never_reuses :
    (get_db_connection ⟨0⟩).1.conn ≠
      (get_db_connection (get_db_connection ⟨0⟩).2).1.conn ∧
    (get_db_connection (get_db_connection ⟨0⟩).2).1.probes = 0 ∧
    (get_db_connection (get_db_connection ⟨0⟩).2).1.createdNew = true := by
  decide

/-- C4 amended: every call performs one token exchange and opens one fresh
connection, issues no liveness probe, and never returns a previously
created connection; there is no per-worker connection map. -/
theorem get_db_connection_always_fresh (s : ConnState) :
    (get_db_connection s).1.probes = 0 ∧
    (get_db_connection s).1.tokenRequests = 1 ∧
    (get_db_connection s).1.createdNew = true ∧
    (get_db_connection s).2.nextConn = s.nextConn + 1 ∧
    (get_db_connection (get_db_connection s).2).1.conn ≠
      (get_db_connection s).1.conn := by
  refine ⟨rfl, rfl, rfl, rfl, ?_⟩
  simp [get_db_connection]

/-- C5: the insert payload always contains the "IsActive" flag — absent
from the request body it is set to True (and a successful create returns
IsActive true); present, it is kept coerced to a boolean via `bool(...)`. -/
theorem create_isactive_flag (cfg : AuthConfig) (h : AuthHeaders)
    (body : Record) (db : Db) :
    hasKey (create_payload body) "IsActive" = true ∧
    (hasKey body "IsActive" = false →
      lookupKey (create_payload body) "IsActive" = some (.vBool true)) ∧
    (∀ v, lookupKey body "IsActive" = some v →
      lookupKey (create_payload body) "IsActive" = some (.vBool (pythonBool v))) ∧
    (hasKey body "IsActive" = false →
      (create_station cfg h body db).1.status = 201 →
      ∃ row db2, create_station cfg h body db = (⟨201, .stationObj row⟩, db2) ∧
        lookupKey row "IsActive" = some (.vBool true)) := by
  have hne : ("IsActive" : String) ≠ "ID" := by decide
  refine ⟨?_, ?_, ?_, ?_⟩
  · rw [create_payload_eq]
    exact hasKey_setKey_self _ _ _
  · intro habs
    rw [create_payload_eq,
      hasKey_eraseKey_ne body "ID" "IsActive" hne, habs]
    simp only [Bool.false_eq_true, if_false]
    exact lookupKey_setKey_self _ _ _
  · intro v hv
    have hv1 : lookupKey (eraseKey body "ID") "IsActive" = some v := by
      rw [lookupKey_eraseKey_ne body "ID" "IsActive" hne]
      exact hv
    have hk1 : hasKey (eraseKey body "ID") "IsActive" = true :=
      hasKey_of_lookupKey _ _ _ hv1
    rw [create_payload_eq,
      hasKey_eraseKey_ne body "ID" "IsActive" hne] at *
    rw [hk1]
    simp only [if_true, hv1, Option.getD_some]
    exact lookupKey_setKey_self _ _ _
  · intro habs h201
    obtain ⟨row, db2, heq, hrow, hvalid⟩ := create_station_201 cfg h body db h201
    have hmem : "IsActive" ∈ db.cols := by
      have hk := hasKey_setKey_self (eraseKey body "ID") "IsActive"
        (if hasKey (eraseKey body "ID") "IsActive" then
          .vBool (pythonBool ((lookupKey (eraseKey body "ID") "IsActive").getD .vNull))
        else .vBool true)
      rw [← create_payload_eq] at hk
      obtain ⟨p, hp, hp1⟩ := (hasKey_eq_true_iff _ _).mp hk
      have hall := List.all_eq_true.mp hvalid p hp
      rw [Bool.and_eq_true] at hall
      obtain ⟨hcont, -⟩ := hall
      rw [hp1] at hcont
      simpa using hcont
    refine ⟨row, db2, heq, ?_⟩
    rw [hrow, lookupKey_rowFromFields db.cols db.nextId _ "IsActive" hmem]
    have hlk : lookupKey (create_payload body) "IsActive" = some (.vBool true) := by
      rw [create_payload_eq,
        hasKey_eraseKey_ne body "ID" "IsActive" hne, habs]
      simp only [Bool.false_eq_true, if_false]
      exact lookupKey_setKey_self _ _ _
    rw [hlk]
    simp

/-- C5 witness: a concrete create with no "IsActive" in the body returns a
201 row whose IsActive is true. -/
theorem create_isactive_flag_witness :
    ∃ row db2,
      create_station localCfg noHeaders [("Name", .vStr "Alpha")] demoDb
        = (⟨201, .stationObj row⟩, db2) ∧
      lookupKey row "IsActive" = some (.vBool true) :=
  (create_isactive_flag localCfg noHeaders [("Name", .vStr "Alpha")] demoDb).2.2.2
    (by decide) (by decide)

/-- C6 counterexample: for a bit column the schema endpoint emits input
type "bit", not "boolean" — shown on the concrete fixture response. -/
theorem input_type_of_bit_is_bit :
    (get_schema localCfg noHeaders demoMeta).1.status = 200 ∧
    (get_schema localCfg noHeaders demoMeta).1.body =
      .columnsObj
        [⟨"ID", "int", none, false, true, "number"⟩,
         ⟨"Name", "nvarchar", some 100, true, false, "text"⟩,
         ⟨"IsActive", "bit", none, false, false, "bit"⟩] ∧
    inputTypeOf "bit" = "bit" ∧ "bit" ≠ "boolean" := by
  decide

/-- C6 amended: the schema endpoint derives the input kind as: bit → "bit",
integer-family types → "number", everything else → "text"; the columns are
returned ordered by the table's native column ordinal position. -/
theorem get_schema_input_kinds (cfg : AuthConfig) (h : AuthHeaders)
    (meta : List MetaColumn)
    (hauth : check_authentication cfg h = (true, ""))
    (hne : metadataRows meta ≠ []) :
    (get_schema cfg h meta).1 =
      ⟨200, .columnsObj ((metadataRows meta).map toColumnInfo)⟩ ∧
    (∀ m ∈ metadataRows meta,
      (toColumnInfo m).input_type =
        (if m.dataType = "bit" then "bit"
         else if m.dataType = "int" ∨ m.dataType = "bigint"
             ∨ m.dataType = "smallint" ∨ m.dataType = "tinyint" then "number"
         else "text")) ∧
    (metadataRows meta).Pairwise ordinalLe := by
  refine ⟨?_, fun m _ => rfl, pairwise_metadataRows meta⟩
  have hm : (metadataRows meta).isEmpty = false := by
    simpa [List.isEmpty_iff] using hne
  have hc : ((metadataRows meta).map toColumnInfo).isEmpty = false := by
    simp [List.isEmpty_iff, List.map_eq_nil_iff]
    simpa [List.isEmpty_iff] using hne
  simp [get_schema, hauth, hm, hc]

theorem get_schema_input_kinds_witness :
    (get_schema localCfg noHeaders demoMeta).1 =
      ⟨200, .columnsObj ((metadataRows demoMeta).map toColumnInfo)⟩ :=
  (get_schema_input_kinds localCfg noHeaders demoMeta (by decide) (by decide)).1

/-- C7 (code defect, evaluated at the failing input): cloning row 1 of the
fixture returns 201, but the returned record is misaligned — its keys come
from splitting the comma-joined column string (all but the first carry a
leading space), they pair against the full re-read row including the fresh
identity so every value is shifted by one, and no "ID" key is present;
the claim's expected record (same names, same values, fresh identity) is
not what is returned. -/
theorem clone_station_misaligned_record :
    clone_station localCfg noHeaders 1 demoDb =
      (⟨201, .stationObj [("Name", .vInt 2), (" IsActive", .vStr "Alpha")]⟩,
        { cols := ["ID", "Name", "IsActive"]
          rows := [[("ID", .vInt 1), ("Name", .vStr "Alpha"), ("IsActive", .vBool true)],
            [("ID", .vInt 2), ("Name", .vStr "Alpha"), ("IsActive", .vBool true)]]
          nextId := 3 }) ∧
    lookupKey [("Name", .vInt 2), (" IsActive", .vStr "Alpha")] "ID" = none ∧
    lookupKey [("Name", .vInt 2), (" IsActive", .vStr "Alpha")] "Name" ≠
      lookupKey [("ID", .vInt 1), ("Name", .vStr "Alpha"), ("IsActive", .vBool true)] "Name" := by
  decide

/-- C8: `check_authentication` authenticates everything outside the managed
(Azure) context; inside it, an absent principal-ID header (Python treats a
missing and an empty header value alike) fails with the login message, a
tenant-ID header different from the configured tenant fails with the
tenant-specific message, and otherwise the request is authenticated. -/
theorem check_authentication_cases (cfg : AuthConfig) (h : AuthHeaders) :
    (cfg.isAzure = false → check_authentication cfg h = (true, "")) ∧
    (cfg.isAzure = true → headerTruthy h.clientPrincipalId = false →
      check_authentication cfg h = (false, loginMessage)) ∧
    (cfg.isAzure = true → headerTruthy h.clientPrincipalId = true →
      h.clientPrincipalTenantId ≠ cfg.tenantId →
      check_authentication cfg h = (false, tenantMessage cfg.tenantId)) ∧
    (cfg.isAzure = true → headerTruthy h.clientPrincipalId = true →
      h.clientPrincipalTenantId = cfg.tenantId →
      check_authentication cfg h = (true, "")) := by
  refine ⟨?_, ?_, ?_, ?_⟩
  · intro h1
    simp [check_authentication, h1]
  · intro h1 h2
    simp [check_authentication, h1, h2]
  · intro h1 h2 h3
    simp [check_authentication, h1, h2, h3]
  · intro h1 h2 h3
    simp [check_authentication, h1, h2, h3]

/-- C8 witness: the four cases at concrete configurations and headers. -/
theorem check_authentication_cases_witness :
    check_authentication localCfg noHeaders = (true, "") ∧
    check_authentication azureCfg noHeaders = (false, loginMessage) ∧
    check_authentication azureCfg ⟨some "u", none, some "other"⟩ =
      (false, tenantMessage (some "contoso")) ∧
    check_authentication azureCfg okHeaders = (true, "") :=
  ⟨(check_authentication_cases localCfg noHeaders).1 rfl,
   (check_authentication_cases azureCfg noHeaders).2.1 rfl rfl,
   (check_authentication_cases azureCfg ⟨some "u", none, some "other"⟩).2.2.1
     rfl (by decide) (by decide),
   (check_authentication_cases azureCfg okHeaders).2.2.2 rfl (by decide) rfl⟩

/-- C9: when the metadata query returns zero rows the handler raises, and
the response is a 500 whose error body is the no-schema message. -/
theorem get_schema_zero_columns (cfg : AuthConfig) (h : AuthHeaders)
    (hauth : check_authentication cfg h = (true, "")) :
    get_schema cfg h [] =
      (⟨500, .errorObj "No schema information found for StationTracking table"⟩, 1) := by
  simp [get_schema, hauth, metadataRows, sortByOrdinal]

theorem get_schema_zero_columns_witness :
    get_schema localCfg noHeaders [] =
      (⟨500, .errorObj "No schema information found for StationTracking table"⟩, 1) :=
  get_schema_zero_columns localCfg noHeaders (by decide)

/-- C10: update with an empty field map — or one containing only "ID" —
passes no empty-body validation, builds the UPDATE text with an empty SET
clause, which the database rejects, and the handler returns 500 with an
error body, leaving the database unchanged: never a silent no-op success. -/
theorem update_station_empty_fields (cfg : AuthConfig) (h : AuthHeaders)
    (id : Int) (v : Value) (db : Db)
    (hauth : check_authentication cfg h = (true, "")) :
    update_sql [] = "UPDATE StationTracking SET  WHERE ID = ?" ∧
    eraseKey [(("ID" : String), v)] "ID" = [] ∧
    (update_station cfg h id [] db).1.status = 500 ∧
    isErrorObjBody (update_station cfg h id [] db).1.body = true ∧
    (update_station cfg h id [] db).2 = db ∧
    (update_station cfg h id [(("ID" : String), v)] db).1.status = 500 := by
  refine ⟨by decide, by simp [eraseKey], ?_, ?_, ?_, ?_⟩ <;>
    simp [update_station, hauth, dbUpdate, eraseKey, isErrorObjBody]

theorem update_station_empty_fields_witness :
    (update_station localCfg noHeaders 1 [] demoDb).1.status = 500 ∧
    (update_station localCfg noHeaders 1 [(("ID" : String), .vInt 7)] demoDb).1.status = 500 :=
  ⟨(update_station_empty_fields localCfg noHeaders 1 .vNull demoDb (by decide)).2.2.1,
   (update_station_empty_fields localCfg noHeaders 1 (.vInt 7) demoDb (by decide)).2.2.2.2.2⟩

end WeatherStation
